import Mathlib

/-!
Shallow embedding of the sequence-producer snippets of the repository:
`Cycle` (src/static/snippets/cycle.py), `InfiniteCounter`
(src/static/snippets/infinite_counter.py), `FileIterator`
(src/static/snippets/file_iterator.py) and the binary-tree in-order
generator (src/public/snippets/treenode.py).

Python iterator calls are modelled as state-passing functions.  A call to
`__next__` returns a `PyOutcome`: either a produced value (`ok`), the
`StopIteration` control signal (`stopIteration`), or a hard failure such
as `ValueError` or `FileNotFoundError` (`error`).
-/

namespace Snippets

/-- Outcome of one Python call: a value, the StopIteration control signal,
or a hard failure (an exception other than StopIteration, identified by its
exception-class name). -/
inductive PyOutcome (α : Type) where
  | ok (a : α)
  | stopIteration
  | error (msg : String)
  deriving DecidableEq, Repr

/-- State of a `Cycle` object (cycle.py): the backing list `data` and the
integer cursor `index`. -/
structure Cycle (α : Type) where
  data : List α
  index : Nat
  deriving DecidableEq, Repr

/-- `Cycle.__init__(data)`: stores the backing list and sets `index = 0`. -/
def Cycle.init {α : Type} (data : List α) : Cycle α :=
  { data := data, index := 0 }

/-- `Cycle.__iter__`: returns `self`, with no state change. -/
def Cycle.iter {α : Type} (c : Cycle α) : Cycle α := c

/-- `Cycle.__next__`: if the backing list is empty (`if not self.data`),
raise StopIteration; otherwise read `self.data[self.index % len(self.data)]`
(always in bounds since the list is non-empty), increment the cursor, and
return the element. -/
def Cycle.next {α : Type} (c : Cycle α) : PyOutcome α × Cycle α :=
  if h : c.data.isEmpty then
    (.stopIteration, c)
  else
    (.ok (c.data.get ⟨c.index % c.data.length,
        Nat.mod_lt _ (List.length_pos.mpr (fun he => h (List.isEmpty_iff.mpr he)))⟩),
     { c with index := c.index + 1 })

/-- `n + 1` successive `__next__` calls on a `Cycle`; the first component is
the outcome of the last call (so `nextN c n` is the n-th produced outcome,
counting from 0). -/
def Cycle.nextN {α : Type} (c : Cycle α) : Nat → PyOutcome α × Cycle α
  | 0 => c.next
  | n + 1 => (c.next).2.nextN n

/-- State of an `InfiniteCounter` object (infinite_counter.py): just the
current value.  Python integers are unbounded, hence `Int`. -/
structure InfiniteCounter where
  current : Int
  deriving DecidableEq, Repr

/-- `InfiniteCounter.__init__(start)`: stores the starting value. -/
def InfiniteCounter.init (start : Int) : InfiniteCounter :=
  { current := start }

/-- `InfiniteCounter.__iter__`: returns `self`, with no state change. -/
def InfiniteCounter.iter (c : InfiniteCounter) : InfiniteCounter := c

/-- `InfiniteCounter.__next__`: return the current value and increment it.
It returns on every call (never raises), so the outcome is always `ok`. -/
def InfiniteCounter.next (c : InfiniteCounter) : PyOutcome Int × InfiniteCounter :=
  (.ok c.current, { current := c.current + 1 })

/-- `k + 1` successive `__next__` calls on an `InfiniteCounter`; the first
component is the outcome of the last call. -/
def InfiniteCounter.nextN (c : InfiniteCounter) : Nat → PyOutcome Int × InfiniteCounter
  | 0 => c.next
  | n + 1 => (c.next).2.nextN n

/-- On a non-empty backing list, `Cycle.__next__` only moves the cursor
forward by one and changes nothing else. -/
theorem Cycle.next_snd {α : Type} (c : Cycle α) (h : c.data ≠ []) :
    (c.next).2 = { c with index := c.index + 1 } := by
  simp [Cycle.next, List.isEmpty_iff, h]

/-- The element a cycle over `data` produces at logical position `i`:
`data[i % len(data)]`, phrased through `List.get?` so that no bound proof
appears in induction statements. -/
def cycElem {α : Type} (data : List α) (i : Nat) : PyOutcome α :=
  match data.get? (i % data.length) with
  | some a => .ok a
  | none => .stopIteration

/-- On a non-empty backing list, one `__next__` call produces the element at
the cursor position. -/
theorem Cycle.next_fst {α : Type} (c : Cycle α) (h : c.data ≠ []) :
    (c.next).1 = cycElem c.data c.index := by
  have hlt : c.index % c.data.length < c.data.length :=
    Nat.mod_lt _ (List.length_pos.mpr h)
  simp [Cycle.next, cycElem, List.isEmpty_iff, h, List.getElem?_eq_getElem hlt]

/-- On a non-empty backing list, the n-th outcome starting from state `c` is
the element at logical position `c.index + n`. -/
theorem Cycle.nextN_ok {α : Type} (n : Nat) :
    ∀ (c : Cycle α), c.data ≠ [] →
      (c.nextN n).1 = cycElem c.data (c.index + n) := by
  induction n with
  | zero =>
    intro c h
    simpa [Cycle.nextN] using Cycle.next_fst c h
  | succ n ih =>
    intro c h
    have hs := Cycle.next_snd c h
    have h2 : ((c.next).2).data ≠ [] := by rw [hs]; exact h
    have key := ih (c.next).2 h2
    rw [Cycle.nextN, key, hs]
    have harith : c.index + 1 + n = c.index + (n + 1) := by omega
    simp [harith]

/-- State of an open CPython text-file object, as FileIterator uses it:
the raw lines not yet consumed (each exactly as `readline` would return it,
so a line of a real file is never the empty string), a closed flag, and a
count of the `close` calls that actually closed the handle (for stating
release-exactly-once properties). -/
structure OpenFile where
  remaining : List String
  closed : Bool
  closeTally : Nat
  deriving DecidableEq, Repr

/-- CPython `file.readline()`: on a closed handle it raises
`ValueError: I/O operation on closed file`; at end of file it returns the
empty string; otherwise it returns the next raw line (with its trailing
newline) and consumes it. -/
def OpenFile.readline (f : OpenFile) : PyOutcome String × OpenFile :=
  if f.closed then
    (.error "ValueError", f)
  else
    match f.remaining with
    | [] => (.ok "", f)
    | l :: rest => (.ok l, { f with remaining := rest })

/-- CPython `file.close()`: closes the handle; closing an already-closed
handle is a no-op. -/
def OpenFile.close (f : OpenFile) : OpenFile :=
  if f.closed then f else { f with closed := true, closeTally := f.closeTally + 1 }

/-- Python `str.strip()` with no argument: remove leading and trailing
whitespace characters (space, tab, carriage return, newline). -/
def pyStrip (s : String) : String :=
  String.mk (((s.toList.dropWhile Char.isWhitespace).reverse.dropWhile
    Char.isWhitespace).reverse)

/-- State of a `FileIterator` object (file_iterator.py): the stored
`filepath`, and `self.file`, which is absent (`none`) until `__iter__`
assigns it. -/
structure FileIterator where
  filepath : String
  file : Option OpenFile
  deriving DecidableEq, Repr

/-- `FileIterator.__init__(filepath)`: stores the path only; the file is
not opened yet. -/
def FileIterator.init (filepath : String) : FileIterator :=
  { filepath := filepath, file := none }

/-- `FileIterator.__iter__`: `self.file = open(self.filepath, 'r')`.  The
surrounding filesystem is a map from path to file lines; `open` on a
missing path raises `FileNotFoundError`, a hard failure, and the iterator
state is not produced.  On success it returns `self` with a fresh open
handle. -/
def FileIterator.iter (fs : String → Option (List String)) (it : FileIterator) :
    PyOutcome FileIterator :=
  match fs it.filepath with
  | none => .error "FileNotFoundError"
  | some lines =>
      .ok { it with file := some { remaining := lines, closed := false, closeTally := 0 } }

/-- `FileIterator.__next__`: `line = self.file.readline()`; if the line is
the empty string, close the file and raise StopIteration; otherwise return
`line.strip()`.  An exception raised by `readline` (ValueError on a closed
handle) propagates; reading `self.file` before `__iter__` ran is an
AttributeError. -/
def FileIterator.next (it : FileIterator) : PyOutcome String × FileIterator :=
  match it.file with
  | none => (.error "AttributeError", it)
  | some f =>
      match f.readline with
      | (.ok line, f2) =>
          if line = "" then
            (.stopIteration, { it with file := some f2.close })
          else
            (.ok (pyStrip line), { it with file := some f2 })
      | (.stopIteration, f2) => (.stopIteration, { it with file := some f2 })
      | (.error e, f2) => (.error e, { it with file := some f2 })

/-- The outcomes of the first `n` successive `__next__` calls on a
`FileIterator`, in order. -/
def FileIterator.nextOutcomes (it : FileIterator) : Nat → List (PyOutcome String)
  | 0 => []
  | n + 1 => (it.next).1 :: (it.next).2.nextOutcomes n

/-- The `FileIterator` state after `n` successive `__next__` calls. -/
def FileIterator.stateAfter (it : FileIterator) : Nat → FileIterator
  | 0 => it
  | n + 1 => (it.next).2.stateAfter n

/-- How many times the iterator's handle has actually been closed (0 when
the file was never opened). -/
def FileIterator.timesClosed (it : FileIterator) : Nat :=
  match it.file with
  | none => 0
  | some f => f.closeTally

/-- A binary tree as built from `TreeNode` objects (treenode.py): a node
holds `val` and its `left` and `right` children, either of which may be
Python `None` (`nil`).  Node keys in the snippet are integers. -/
inductive PyTree where
  | nil
  | node (val : Int) (left : PyTree) (right : PyTree)
  deriving DecidableEq, Repr

/-- `BinaryTree.in_order_traversal(node)`: `if node:` recurse into the left
child, yield the node value, recurse into the right child; on `None` yield
nothing.  The generator is materialized as the list of values it yields,
in order. -/
def in_order_traversal : PyTree → List Int
  | .nil => []
  | .node v l r => in_order_traversal l ++ [v] ++ in_order_traversal r

/-- State of a `BinaryTree` object (treenode.py): only the root node. -/
structure BinaryTree where
  root : PyTree
  deriving DecidableEq, Repr

/-- `BinaryTree.__iter__`: returns the generator
`self.in_order_traversal(self.root)` — materialized as the sequence it
yields — together with the object state after the call, which `__iter__`
does not mutate. -/
def BinaryTree.iterRun (t : BinaryTree) : List Int × BinaryTree :=
  (in_order_traversal t.root, t)

/-- The tree built by the usage snippet: root 1, left child 2 with children
4 and 5, right child 3. -/
def exampleTree : BinaryTree :=
  { root := .node 1 (.node 2 (.node 4 .nil .nil) (.node 5 .nil .nil))
      (.node 3 .nil .nil) }

/-- The k-th outcome of an `InfiniteCounter` starting from state `c` is
`c.current + k`, and it is always a produced value, never an exception. -/
theorem InfiniteCounter.nextN_val (k : Nat) :
    ∀ c : InfiniteCounter, (c.nextN k).1 = PyOutcome.ok (c.current + k) := by
  induction k with
  | zero =>
    intro c
    simp [InfiniteCounter.nextN, InfiniteCounter.next]
  | succ k ih =>
    intro c
    rw [InfiniteCounter.nextN, ih]
    congr 1
    simp [InfiniteCounter.next]
    ring

/-- Claim C2: for every non-empty backing collection `data` and every
`n ≥ 0`, the n-th element produced by `Cycle data` (counting from 0) is
`data[n % len(data)]`, and the call produces a value (no exhaustion is
signaled). -/
theorem c2_cycle_nth_element {α : Type} (data : List α) (n : Nat) (h : data ≠ []) :
    ((Cycle.init data).nextN n).1 =
      PyOutcome.ok (data.get ⟨n % data.length, Nat.mod_lt _ (List.length_pos.mpr h)⟩) := by
  have key := Cycle.nextN_ok n (Cycle.init data) h
  have hlt : n % data.length < data.length := Nat.mod_lt _ (List.length_pos.mpr h)
  simpa [Cycle.init, cycElem, List.getElem?_eq_getElem hlt] using key

/-- Witness for claim C2: the 7th element (from 0) of `Cycle [10, 20, 30]`
is `[10, 20, 30][7 % 3] = 20`. -/
theorem c2_cycle_nth_element_witness :
    ((Cycle.init [10, 20, 30]).nextN 7).1 = PyOutcome.ok 20 := by
  have h := c2_cycle_nth_element [10, 20, 30] 7 (by decide)
  exact h.trans (by decide)

/-- Claim C3: on an empty backing collection, the very first `__next__`
call of `Cycle` signals exhaustion (StopIteration), not a hard failure. -/
theorem c3_cycle_empty_first_advance (α : Type) :
    ((Cycle.init ([] : List α)).next).1 = PyOutcome.stopIteration := by
  simp [Cycle.init, Cycle.next]

/-- Claim C4: for the infinite counter started at `s`, the k-th produced
value (counting from 0) is `s + k`, and every call produces a value — no
call ever signals exhaustion. -/
theorem c4_counter_kth_value (s : Int) (k : Nat) :
    ((InfiniteCounter.init s).nextN k).1 = PyOutcome.ok (s + k) := by
  simpa [InfiniteCounter.init] using InfiniteCounter.nextN_val k (InfiniteCounter.init s)

/-- A filesystem holding the usage example `example.txt` with lines
`a`, `b`, `c` (raw lines carry their trailing newline). -/
def exampleFS : String → Option (List String) :=
  fun p => if p = "example.txt" then some ["a\n", "b\n", "c\n"] else none

/-- The iterator state right after `__iter__` opened `example.txt`. -/
def abcFileIt : FileIterator :=
  { filepath := "example.txt",
    file := some { remaining := ["a\n", "b\n", "c\n"], closed := false, closeTally := 0 } }

/-- An iterator whose open handle has a single line `a`. -/
def oneLineFileIt : FileIterator :=
  { filepath := "one.txt",
    file := some { remaining := ["a\n"], closed := false, closeTally := 0 } }

/-- An iterator whose open handle has a single whitespace-only line. -/
def wsFileIt : FileIterator :=
  { filepath := "ws.txt",
    file := some { remaining := [" \n"], closed := false, closeTally := 0 } }

/-- Claim C1 (behavior the code actually has, contradicting the claim):
after `FileIterator` signals exhaustion — which closes the file — the next
`__next__` call does NOT signal exhaustion again: `readline` on the closed
handle raises `ValueError`, a hard failure.  On a one-line file the three
successive outcomes are `ok "a"`, `StopIteration`, `ValueError`; the
resource is not re-acquired (the handle stays the one closed exactly
once). -/
theorem c1_post_exhaustion_hard_failure :
    oneLineFileIt.nextOutcomes 3 =
      [PyOutcome.ok "a", PyOutcome.stopIteration, PyOutcome.error "ValueError"] ∧
    (oneLineFileIt.stateAfter 3).timesClosed = 1 := by
  decide

/-- Claim C5: the tree adapter is the standard recursive in-order walk, and
on the usage tree (root 1, left child 2 with children 4 and 5, right child
3) it produces exactly `[4, 2, 5, 1, 3]`. -/
theorem c5_in_order_sequence :
    in_order_traversal exampleTree.root = [4, 2, 5, 1, 3] ∧
    (exampleTree.iterRun).1 = [4, 2, 5, 1, 3] := by
  decide

/-- Claim C6: over `example.txt` with lines `a`, `b`, `c`, the first three
`__next__` calls yield `"a"`, `"b"`, `"c"` in order, the fourth signals
exhaustion, and the handle is closed exactly once, at the fourth call (it
is still unclosed after the third). -/
theorem c6_file_run :
    (FileIterator.init "example.txt").iter exampleFS = PyOutcome.ok abcFileIt ∧
    abcFileIt.nextOutcomes 4 =
      [PyOutcome.ok "a", PyOutcome.ok "b", PyOutcome.ok "c", PyOutcome.stopIteration] ∧
    (abcFileIt.stateAfter 3).timesClosed = 0 ∧
    (abcFileIt.stateAfter 4).timesClosed = 1 := by
  decide

/-- Claim C7: when the filesystem has no file at the iterator's path,
`__iter__` surfaces `FileNotFoundError` as a hard failure immediately: no
iterator state is produced, so no `__next__` call can follow. -/
theorem c7_missing_file_hard_failure (fs : String → Option (List String))
    (it : FileIterator) (h : fs it.filepath = none) :
    it.iter fs = PyOutcome.error "FileNotFoundError" := by
  simp [FileIterator.iter, h]

/-- Witness for claim C7: opening `missing.txt` on an empty filesystem
fails with `FileNotFoundError`. -/
theorem c7_missing_file_hard_failure_witness :
    (FileIterator.init "missing.txt").iter (fun _ => none) =
      PyOutcome.error "FileNotFoundError" :=
  c7_missing_file_hard_failure (fun _ => none) (FileIterator.init "missing.txt") rfl

/-- Claim C8: iterating a `BinaryTree` leaves the object unchanged, a
repeated iteration yields the same sequence, and the sequence is re-derived
from the tree structure (it equals `in_order_traversal` of the root), not
read from persisted cursor state. -/
theorem c8_tree_restartable (t : BinaryTree) :
    (t.iterRun).2 = t ∧
    ((t.iterRun).2.iterRun).1 = (t.iterRun).1 ∧
    (t.iterRun).1 = in_order_traversal t.root :=
  ⟨rfl, rfl, rfl⟩

/-- Claim C9: the in-memory producers' cursors only move forward.  Every
successful `Cycle.__next__` increments `index` by one (strictly
increasing); on the empty collection the state is unchanged (never
decreased); `__iter__` never changes state; every `InfiniteCounter.__next__`
increments `current` by one (strictly increasing). -/
theorem c9_cursor_monotonic :
    (∀ (α : Type) (c : Cycle α),
        c.iter = c ∧
        (c.data = [] → (c.next).2 = c) ∧
        (c.data ≠ [] → (c.next).2.index = c.index + 1 ∧ c.index < (c.next).2.index)) ∧
    (∀ c : InfiniteCounter,
        c.iter = c ∧ (c.next).2.current = c.current + 1 ∧
          c.current < (c.next).2.current) := by
  constructor
  · intro α c
    refine ⟨rfl, ?_, ?_⟩
    · intro h
      simp [Cycle.next, h]
    · intro h
      rw [Cycle.next_snd c h]
      exact ⟨rfl, Nat.lt_succ_self _⟩
  · intro c
    refine ⟨rfl, rfl, ?_⟩
    simp only [InfiniteCounter.next]
    omega

/-- Witness for claim C9: after one `__next__`, `Cycle [1, 2, 3]` has index
1 and `InfiniteCounter 5` has current value 6. -/
theorem c9_cursor_monotonic_witness :
    ((Cycle.init ([1, 2, 3] : List Nat)).next).2.index = 1 ∧
    ((InfiniteCounter.init 5).next).2.current = 6 := by
  constructor
  · have h := (c9_cursor_monotonic.1 Nat (Cycle.init [1, 2, 3])).2.2 (by decide)
    exact h.1.trans (by decide)
  · have h := (c9_cursor_monotonic.2 (InfiniteCounter.init 5)).2.1
    exact h.trans (by decide)

/-- Claim C10: with an open, unclosed handle, every produced element is the
raw line with leading and trailing whitespace stripped (`line.strip()`), so
a non-empty whitespace-only line yields `""` rather than exhaustion; and
exhaustion is signaled exactly when `readline` returns the truly empty
string, i.e. at end of file. -/
theorem c10_strip_semantics (it : FileIterator) (f : OpenFile)
    (hf : it.file = some f) (hc : f.closed = false) :
    (∀ l rest, f.remaining = l :: rest → l ≠ "" →
        (it.next).1 = PyOutcome.ok (pyStrip l)) ∧
    (f.remaining = [] → (it.next).1 = PyOutcome.stopIteration) := by
  constructor
  · intro l rest hrem hne
    simp [FileIterator.next, OpenFile.readline, hf, hc, hrem, hne]
  · intro hrem
    simp [FileIterator.next, OpenFile.readline, hf, hc, hrem]

/-- Witness for claim C10: a whitespace-only line `" \n"` is yielded as the
empty string (not exhaustion), and an open handle at end of file signals
exhaustion. -/
theorem c10_strip_semantics_witness :
    (wsFileIt.next).1 = PyOutcome.ok "" ∧
    ((FileIterator.mk "e.txt" (some (OpenFile.mk [] false 0))).next).1 =
      PyOutcome.stopIteration := by
  constructor
  · have h := (c10_strip_semantics wsFileIt (OpenFile.mk [" \n"] false 0) rfl rfl).1
      " \n" [] rfl (by decide)
    exact h.trans (by decide)
  · exact (c10_strip_semantics _ (OpenFile.mk [] false 0) rfl rfl).2 rfl

end Snippets
